import Mathlib

/-!
Verification of the `karak` medical-record service (src/Lab3/karak).

Shallow embedding of the data model (`models.rs`), the entity store
(`db.rs`), the authorization context (`authorization.rs`) and the record
service (`services.rs`).  Rust `HashMap`s are embedded as association
lists with unique keys (`Database.WF`); the Casbin policy engine is an
opaque decision oracle (`Enforcer`); interactive input and random ID
generation are passed as explicit parameters; Argon2 hashing is
idealized as an injective, collision-free function on plaintexts
(`verify p (some h)` holds exactly when `h` is the hash of `p`, which is
the guarantee the real salted hash provides up to negligible collision
probability).
-/

namespace Karak

/-- `models.rs`: `UserID` (an opaque unique identifier, `Uuid` in the source). -/
abbrev UserID := Nat

/-- `models.rs`: `ReportID`. -/
abbrev ReportID := Nat

/-- Validated username value type (`input_validation.rs::Username`), consumed opaquely. -/
abbrev Username := String

/-- `models.rs`: `Role`. -/
inductive Role where
  | Doctor
  | Patient
  | Admin
deriving DecidableEq

/-- `models.rs`: `BloodType`. -/
inductive BloodType where
  | A
  | AB
  | B
  | O
deriving DecidableEq

/-- `password_utils.rs`: a password hash, idealized (see module comment). -/
abbrev PWHash := String

/-- `password_utils.rs::hash`: idealized collision-free hash (the salt is
abstracted away; all the code observes about hashes is `verify`). -/
def hash (password : String) : PWHash := password

/-- `password_utils.rs::EMPTY_HASH`: the decoy hash of the empty password,
used when the user does not exist. -/
def EMPTY_HASH : PWHash := hash ""

/-- `password_utils.rs::verify`: checks the password against the stored hash;
a missing hash is replaced by the fixed decoy `EMPTY_HASH`. -/
def verify (password : String) (maybe_hash : Option PWHash) : Bool :=
  password == maybe_hash.getD EMPTY_HASH

/-- `models.rs`: `PersonalData`. -/
structure PersonalData where
  avs_number : String
  blood_type : BloodType
deriving DecidableEq

/-- `models.rs`: `MedicalFolder` (the `BTreeSet<UserID>` of treating doctors
is embedded as a `Finset`). -/
structure MedicalFolder where
  personal_data : PersonalData
  doctors : Finset UserID
deriving DecidableEq

/-- `MedicalFolder::new`. -/
def MedicalFolder.new (personal_data : PersonalData) : MedicalFolder :=
  { personal_data := personal_data, doctors := ∅ }

/-- `models.rs`: `UserData`. -/
structure UserData where
  id : UserID
  role : Role
  username : Username
  password : PWHash
  medical_folder : Option MedicalFolder
deriving DecidableEq

/-- `UserData::has_doctor`. -/
def UserData.has_doctor (u : UserData) (doctor : UserID) : Bool :=
  match u.medical_folder with
  | some folder => doctor ∈ folder.doctors
  | none => false

/-- `models.rs`: `MedicalReport`. -/
structure MedicalReport where
  id : ReportID
  title : String
  author : UserID
  patient : UserID
  content : String
deriving DecidableEq

/-! ### Association-list primitives

The Rust `HashMap`s of `db.rs` are embedded as association lists; the
in-place mutation through `get_mut` is `updKey`, lookup is `findKey`. -/

/-- Lookup of the (first) entry with the given key. -/
def findKey {α : Type} (l : List (Nat × α)) (id : Nat) : Option (Nat × α) :=
  l.find? (fun kv => kv.1 == id)

/-- In-place update of the value stored at a key (`get_mut` plus assignment). -/
def updKey {α : Type} (l : List (Nat × α)) (id : Nat) (f : α → α) : List (Nat × α) :=
  l.map (fun kv => if kv.1 = id then (kv.1, f kv.2) else kv)

/-- `db.rs`: the `Database`, two maps (path and snapshot I/O are out of scope). -/
structure Database where
  users : List (UserID × UserData)
  reports : List (ReportID × MedicalReport)
deriving DecidableEq

/-- `db.rs`: `DBError` (the `UserAlreadyExists` variant is never constructed
by the code under verification). -/
inductive DBError where
  | InvalidUserID (id : UserID)
deriving DecidableEq

/-- Well-formedness of the embedding: map keys are unique, as in a `HashMap`. -/
def Database.WF (db : Database) : Prop :=
  (db.users.map (fun kv => kv.1)).Nodup ∧ (db.reports.map (fun kv => kv.1)).Nodup

/-- `Database::get_user`. -/
def Database.get_user (db : Database) (user : UserID) : Except DBError UserData :=
  match findKey db.users user with
  | some kv => .ok kv.2
  | none => .error (.InvalidUserID user)

/-- Whether a user ID is present (the domain check behind `get_user_mut`). -/
def Database.hasUser (db : Database) (user : UserID) : Bool :=
  (findKey db.users user).isSome

/-- `Database::get_user_mut` followed by one in-place field update:
returns the updated store, or `InvalidUserID` when the ID is absent. -/
def Database.modify_user (db : Database) (user : UserID) (f : UserData → UserData) :
    Except DBError Database :=
  if db.hasUser user then
    .ok { db with users := updKey db.users user f }
  else
    .error (.InvalidUserID user)

/-- `Database::lookup_username`: linear scan over the users. -/
def Database.lookup_username (db : Database) (name : Username) : Option UserData :=
  (db.users.find? (fun kv => kv.2.username == name)).map (fun kv => kv.2)

/-- `Database::store_user`: insert or overwrite by ID. -/
def Database.store_user (db : Database) (data : UserData) : Database :=
  if db.hasUser data.id then
    { db with users := updKey db.users data.id (fun _ => data) }
  else
    { db with users := db.users ++ [(data.id, data)] }

/-- `Database::get_report`. -/
def Database.get_report (db : Database) (report : ReportID) : Option MedicalReport :=
  (findKey db.reports report).map (fun kv => kv.2)

/-- Whether a report ID is present. -/
def Database.hasReport (db : Database) (report : ReportID) : Bool :=
  (findKey db.reports report).isSome

/-- `Database::store_report`: insert or overwrite by ID. -/
def Database.store_report (db : Database) (report : MedicalReport) : Database :=
  if db.hasReport report.id then
    { db with reports := updKey db.reports report.id (fun _ => report) }
  else
    { db with reports := db.reports ++ [(report.id, report)] }

/-- `Database::get_report_data_mut(id).unwrap() = content` (only executed by
the service after `get_report` has succeeded, so the `unwrap` cannot fail). -/
def Database.set_report_content (db : Database) (report : ReportID) (content : String) :
    Database :=
  { db with reports := updKey db.reports report (fun r => { r with content := content }) }

/-- `Database::list_reports`: the stored report values. -/
def Database.list_reports (db : Database) : List MedicalReport :=
  db.reports.map (fun kv => kv.2)

/-- `Database::remove_reports`: retain the reports of other patients. -/
def Database.remove_reports (db : Database) (patient : UserID) : Database :=
  { db with reports := db.reports.filter (fun kv => kv.2.patient != patient) }

/-! ### Authorization (`authorization.rs`) -/

/-- `authorization.rs`: `AccessDenied`, an error without details. -/
structure AccessDenied : Type where
deriving DecidableEq

/-- The object shapes the context feeds to the policy oracle, one per row of
the object-construction table (field names and order follow the `json!`
shapes of the source). -/
inductive AuthzObject where
  | user (target : UserData)
  | patientReport (patient : UserData) (report : MedicalReport)
  | reportPatient (report : MedicalReport) (patient : UserData)
  | report (r : MedicalReport)
  | targetRole (target : UserData) (role : Role)
  | patientDoctor (patient : UserData) (doctor : UserData)
deriving DecidableEq

/-- The opaque policy decision oracle (Casbin): `(subject, object, action)`
to allow or deny.  An oracle-internal failure is folded into `false`, as the
code maps both to `AccessDenied`. -/
abbrev Enforcer := UserData → AuthzObject → String → Bool

abbrev CasbinResult := Except AccessDenied Unit

/-- `authorization.rs`: `Context`, binding an enforcer and a subject. -/
structure Context where
  enforcer : Enforcer
  subject : UserData

/-- `Context::enforce`. -/
def Context.enforce (ctx : Context) (object : AuthzObject) (action : String) : CasbinResult :=
  if ctx.enforcer ctx.subject object action then .ok () else .error ⟨⟩

/-- `Context::read_data`. -/
def Context.read_data (ctx : Context) (patient : UserData) : CasbinResult :=
  ctx.enforce (.user patient) "read-data"

/-- `Context::update_data`. -/
def Context.update_data (ctx : Context) (target : UserData) : CasbinResult :=
  ctx.enforce (.user target) "update-data"

/-- `Context::delete_data`. -/
def Context.delete_data (ctx : Context) (target : UserData) : CasbinResult :=
  ctx.enforce (.user target) "delete-data"

/-- `Context::add_report`. -/
def Context.add_report (ctx : Context) (patient : UserData) (report : MedicalReport) :
    CasbinResult :=
  ctx.enforce (.patientReport patient report) "add-report"

/-- `Context::read_report`. -/
def Context.read_report (ctx : Context) (report : MedicalReport) (patient : UserData) :
    CasbinResult :=
  ctx.enforce (.reportPatient report patient) "read-report"

/-- `Context::update_report`. -/
def Context.update_report (ctx : Context) (report : MedicalReport) : CasbinResult :=
  ctx.enforce (.report report) "update-report"

/-- `Context::update_role`. -/
def Context.update_role (ctx : Context) (target : UserData) (role : Role) : CasbinResult :=
  ctx.enforce (.targetRole target role) "update-role"

/-- `Context::add_doctor`. -/
def Context.add_doctor (ctx : Context) (target : UserData) (doctor : UserData) : CasbinResult :=
  ctx.enforce (.patientDoctor target doctor) "add-doctor"

/-- `Context::remove_doctor`. -/
def Context.remove_doctor (ctx : Context) (target : UserData) (doctor : UserData) :
    CasbinResult :=
  ctx.enforce (.patientDoctor target doctor) "remove-doctor"

/-! ### The record service (`services.rs`) -/

/-- `services.rs`: `Service`. -/
structure Service where
  user : Option UserID
  db : Database
  enforcer : Enforcer

/-- `services.rs`: `ServiceError`. -/
inductive ServiceError where
  | AccessDenied (e : AccessDenied)
  | UserAlreadyExists
  | DBError (e : DBError)
  | NotAPatient
  | NoSuchReport
deriving DecidableEq

/-- `services.rs`: `LoginError`. -/
inductive LoginError where
  | InvalidCredentials
deriving DecidableEq

/-- The observable outcome of `Service::login`; `panic` models the
`Option::unwrap` on `None` the source performs after `verify` succeeds
with no stored user. -/
inductive LoginOutcome where
  | ok (id : UserID)
  | err (e : LoginError)
  | panic
deriving DecidableEq

/-- `Service::get_subject`. -/
def Service.get_subject (s : Service) : Option UserData :=
  s.user.bind (fun uid => (s.db.get_user uid).toOption)

/-- `Service::enforce`: build a context for the connected user, or
`AccessDenied` when no subject resolves. -/
def Service.enforce (s : Service) : Except ServiceError Context :=
  match s.get_subject with
  | some subject => .ok { enforcer := s.enforcer, subject := subject }
  | none => .error (.AccessDenied ⟨⟩)

/-- `Service::register`.  The interactively collected password
(`password_input_validation`) and the random `UserID::new()` are passed as
the explicit parameters `entered_password` and `new_uid`. -/
def Service.register (s : Service) (username : Username) (entered_password : String)
    (new_uid : UserID) : Except ServiceError UserID × Service :=
  let password := hash entered_password
  match s.db.lookup_username username with
  | some _ => (.error .UserAlreadyExists, s)
  | none =>
    let new_user : UserData :=
      { id := new_uid, role := .Patient, username := username, password := password,
        medical_folder := none }
    (.ok new_uid, { s with db := s.db.store_user new_user })

/-- `Service::login`. -/
def Service.login (s : Service) (username : Username) (password : String) :
    LoginOutcome × Service :=
  let user := s.db.lookup_username username
  let h := user.map (fun u => u.password)
  if !(verify password h) then
    (.err .InvalidCredentials, s)
  else
    match user with
    | some u => (.ok u.id, { s with user := some u.id })
    | none => (.panic, s)

/-- `Service::logout`. -/
def Service.logout (s : Service) : Service :=
  { s with user := none }

/-- `Service::lookup_user`. -/
def Service.lookup_user (s : Service) (username : Username) : Option UserID :=
  (s.db.lookup_username username).map (fun u => u.id)

/-- `Service::update_role`. -/
def Service.update_role (s : Service) (user_id : UserID) (new_role : Role) :
    Except ServiceError Unit × Service :=
  match s.db.get_user user_id with
  | .error e => (.error (.DBError e), s)
  | .ok user =>
    match s.enforce with
    | .error e => (.error e, s)
    | .ok ctx =>
      match ctx.update_role user new_role with
      | .error e => (.error (.AccessDenied e), s)
      | .ok _ =>
        match s.db.modify_user user_id (fun u => { u with role := new_role }) with
        | .error e => (.error (.DBError e), s)
        | .ok db => (.ok (), { s with db := db })

/-- `Service::get_data` (read-only, returns no new state). -/
def Service.get_data (s : Service) (user_id : UserID) : Except ServiceError UserData :=
  match s.db.get_user user_id with
  | .error e => .error (.DBError e)
  | .ok user =>
    match s.enforce with
    | .error e => .error e
    | .ok ctx =>
      match ctx.read_data user with
      | .error e => .error (.AccessDenied e)
      | .ok _ =>
        match s.db.get_user user_id with
        | .error e => .error (.DBError e)
        | .ok u => .ok u

/-- `Service::update_data`. -/
def Service.update_data (s : Service) (user_id : UserID) (personal_data : PersonalData) :
    Except ServiceError Unit × Service :=
  match s.db.get_user user_id with
  | .error e => (.error (.DBError e), s)
  | .ok user =>
    match s.enforce with
    | .error e => (.error e, s)
    | .ok ctx =>
      match ctx.update_data user with
      | .error e => (.error (.AccessDenied e), s)
      | .ok _ =>
        match s.db.modify_user user_id (fun u =>
            { u with medical_folder :=
                match u.medical_folder with
                | some folder => some { folder with personal_data := personal_data }
                | none => some (MedicalFolder.new personal_data) }) with
        | .error e => (.error (.DBError e), s)
        | .ok db => (.ok (), { s with db := db })

/-- `Service::delete_data`.  Note: the source gates this operation on
`Context::update_data` (action `update-data`); `Context::delete_data` is
never invoked by the service. -/
def Service.delete_data (s : Service) (patient : UserID) :
    Except ServiceError Unit × Service :=
  match s.db.get_user patient with
  | .error e => (.error (.DBError e), s)
  | .ok user =>
    match s.enforce with
    | .error e => (.error e, s)
    | .ok ctx =>
      match ctx.update_data user with
      | .error e => (.error (.AccessDenied e), s)
      | .ok _ =>
        match s.db.modify_user patient (fun u => { u with medical_folder := none }) with
        | .error e => (.error (.DBError e), s)
        | .ok db => (.ok (), { s with db := db.remove_reports patient })

/-- `Service::add_report`.  The random `ReportID::new()` is the explicit
parameter `new_rid`; note that the author ID is put into the report without
being resolved in the store. -/
def Service.add_report (s : Service) (author : UserID) (patient : UserID)
    (title : String) (content : String) (new_rid : ReportID) :
    Except ServiceError Unit × Service :=
  let report : MedicalReport :=
    { id := new_rid, title := title, author := author, patient := patient, content := content }
  match s.db.get_user patient with
  | .error e => (.error (.DBError e), s)
  | .ok user =>
    match s.enforce with
    | .error e => (.error e, s)
    | .ok ctx =>
      match ctx.add_report user report with
      | .error e => (.error (.AccessDenied e), s)
      | .ok _ => (.ok (), { s with db := s.db.store_report report })

/-- `Service::list_reports`: lazy filtered view, embedded as the produced list. -/
def Service.list_reports (s : Service) (user_id : UserID) : List MedicalReport :=
  match s.enforce with
  | .error _ => []
  | .ok ctx =>
    (s.db.list_reports.filter (fun report => report.patient == user_id)).filter
      (fun report =>
        match s.db.get_user report.patient with
        | .error _ => false
        | .ok patient =>
          match ctx.read_report report patient with
          | .ok _ => true
          | .error _ => false)

/-- `Service::list_patients`. -/
def Service.list_patients (s : Service) : List UserData :=
  match s.user with
  | none => []
  | some u =>
    ((s.db.users.map (fun kv => kv.2)).filter (fun v => v.has_doctor u)).filterMap
      (fun v => (s.db.get_user v.id).toOption)

/-- `Service::add_doctor`. -/
def Service.add_doctor (s : Service) (patient_id : UserID) (doctor_id : UserID) :
    Except ServiceError Unit × Service :=
  match s.db.get_user patient_id with
  | .error e => (.error (.DBError e), s)
  | .ok patient =>
    match s.db.get_user doctor_id with
    | .error e => (.error (.DBError e), s)
    | .ok doctor =>
      match s.enforce with
      | .error e => (.error e, s)
      | .ok ctx =>
        match ctx.add_doctor patient doctor with
        | .error e => (.error (.AccessDenied e), s)
        | .ok _ =>
          match s.db.modify_user patient_id (fun u =>
              { u with medical_folder :=
                  u.medical_folder.map (fun f => { f with doctors := insert doctor_id f.doctors }) }) with
          | .error e => (.error (.DBError e), s)
          | .ok db => (.ok (), { s with db := db })

/-- `Service::remove_doctor`. -/
def Service.remove_doctor (s : Service) (patient_id : UserID) (doctor_id : UserID) :
    Except ServiceError Unit × Service :=
  match s.db.get_user patient_id with
  | .error e => (.error (.DBError e), s)
  | .ok patient =>
    match s.db.get_user doctor_id with
    | .error e => (.error (.DBError e), s)
    | .ok doctor =>
      match s.enforce with
      | .error e => (.error e, s)
      | .ok ctx =>
        match ctx.remove_doctor patient doctor with
        | .error e => (.error (.AccessDenied e), s)
        | .ok _ =>
          match s.db.modify_user patient_id (fun u =>
              { u with medical_folder :=
                  u.medical_folder.map (fun f => { f with doctors := f.doctors.erase doctor_id }) }) with
          | .error e => (.error (.DBError e), s)
          | .ok db => (.ok (), { s with db := db })

/-- `Service::update_report`. -/
def Service.update_report (s : Service) (report_id : ReportID) (content : String) :
    Except ServiceError Unit × Service :=
  match s.db.get_report report_id with
  | none => (.error .NoSuchReport, s)
  | some report =>
    match s.enforce with
    | .error e => (.error e, s)
    | .ok ctx =>
      match ctx.update_report report with
      | .error e => (.error (.AccessDenied e), s)
      | .ok _ => (.ok (), { s with db := s.db.set_report_content report_id content })

/-! ### Association-list lemmas -/

theorem findKey_cons {α : Type} (kv : Nat × α) (t : List (Nat × α)) (id : Nat) :
    findKey (kv :: t) id = if kv.1 = id then some kv else findKey t id := by
  by_cases h : kv.1 = id <;> simp [findKey, List.find?_cons, h]

theorem updKey_cons {α : Type} (kv : Nat × α) (t : List (Nat × α)) (id : Nat) (f : α → α) :
    updKey (kv :: t) id f = (if kv.1 = id then (kv.1, f kv.2) else kv) :: updKey t id f := rfl

theorem findKey_updKey_self {α : Type} (l : List (Nat × α)) (id : Nat) (f : α → α) :
    findKey (updKey l id f) id = (findKey l id).map (fun kv => (kv.1, f kv.2)) := by
  induction l with
  | nil => rfl
  | cons kv t ih =>
    rw [updKey_cons]
    by_cases h : kv.1 = id <;> simp [findKey_cons, h, ih]

theorem findKey_updKey_ne {α : Type} (l : List (Nat × α)) {k id : Nat} (f : α → α)
    (h : k ≠ id) : findKey (updKey l id f) k = findKey l k := by
  induction l with
  | nil => rfl
  | cons kv t ih =>
    obtain ⟨a, b⟩ := kv
    rw [updKey_cons]
    by_cases h1 : a = id
    · subst h1
      have h2 : ¬(a = k) := fun hc => h hc.symm
      simp [findKey_cons, h2, ih]
    · by_cases h2 : a = k
      · subst h2
        simp [findKey_cons, h1]
      · simp [findKey_cons, h1, h2, ih]

theorem updKey_eq_self {α : Type} (l : List (Nat × α)) (id : Nat) (f : α → α)
    (h : ∀ kv ∈ l, kv.1 = id → f kv.2 = kv.2) : updKey l id f = l := by
  induction l with
  | nil => rfl
  | cons kv t ih =>
    obtain ⟨a, b⟩ := kv
    rw [updKey_cons]
    have ht : updKey t id f = t :=
      ih (fun kv2 hm he => h kv2 (List.mem_cons_of_mem (a, b) hm) he)
    by_cases h1 : a = id
    · subst h1
      have hv := h (a, b) (List.mem_cons_self (a, b) t) rfl
      simp at hv
      simp [hv, ht]
    · simp [h1, ht]

theorem updKey_updKey {α : Type} (l : List (Nat × α)) (id : Nat) (f g : α → α) :
    updKey (updKey l id f) id g = updKey l id (fun v => g (f v)) := by
  induction l with
  | nil => rfl
  | cons kv t ih =>
    rw [updKey_cons]
    by_cases h : kv.1 = id <;> simp [updKey_cons, h, ih]

theorem keys_updKey {α : Type} (l : List (Nat × α)) (id : Nat) (f : α → α) :
    (updKey l id f).map (fun kv => kv.1) = l.map (fun kv => kv.1) := by
  induction l with
  | nil => rfl
  | cons kv t ih =>
    rw [updKey_cons]
    by_cases h : kv.1 = id <;> simp [h, ih]

theorem entry_unique {α : Type} {l : List (Nat × α)}
    (hnd : (l.map (fun kv => kv.1)).Nodup) {a b : Nat × α}
    (ha : a ∈ l) (hb : b ∈ l) (h : a.1 = b.1) : a = b := by
  induction l with
  | nil => cases ha
  | cons kv t ih =>
    rw [List.map_cons, List.nodup_cons] at hnd
    rcases List.mem_cons.mp ha with rfl | ha2
    · rcases List.mem_cons.mp hb with rfl | hb2
      · rfl
      · exact absurd (h ▸ List.mem_map_of_mem (fun kv => kv.1) hb2) hnd.1
    · rcases List.mem_cons.mp hb with rfl | hb2
      · have : a.1 ∈ t.map (fun kv => kv.1) := List.mem_map_of_mem (fun kv => kv.1) ha2
        rw [h] at this
        exact absurd this hnd.1
      · exact ih hnd.2 ha2 hb2

theorem findKey_some_key {α : Type} {l : List (Nat × α)} {id : Nat} {kv : Nat × α}
    (h : findKey l id = some kv) : kv.1 = id := by
  have := List.find?_some h
  simpa using this

theorem findKey_some_mem {α : Type} {l : List (Nat × α)} {id : Nat} {kv : Nat × α}
    (h : findKey l id = some kv) : kv ∈ l :=
  List.mem_of_find?_eq_some h

theorem mem_key_eq_of_findKey {α : Type} {l : List (Nat × α)}
    (hnd : (l.map (fun kv => kv.1)).Nodup) {id : Nat} {e kv : Nat × α}
    (hf : findKey l id = some e) (hm : kv ∈ l) (hk : kv.1 = id) : kv = e :=
  entry_unique hnd hm (findKey_some_mem hf) (by rw [hk, findKey_some_key hf])

/-! ### Small rewriting lemmas about the embedded operations -/

theorem Database.findKey_of_get_user {db : Database} {id : UserID} {u : UserData}
    (h : db.get_user id = .ok u) : findKey db.users id = some (id, u) := by
  unfold Database.get_user at h
  cases hf : findKey db.users id with
  | none => rw [hf] at h; cases h
  | some kv =>
    rw [hf] at h
    obtain ⟨k, v⟩ := kv
    have hk : k = id := findKey_some_key hf
    have hv : v = u := by injection h
    rw [hk, hv]

theorem Database.get_user_of_findKey {db : Database} {id : UserID} {kv : UserID × UserData}
    (h : findKey db.users id = some kv) : db.get_user id = .ok kv.2 := by
  unfold Database.get_user
  rw [h]

theorem Database.hasUser_of_get_user {db : Database} {id : UserID} {u : UserData}
    (h : db.get_user id = .ok u) : db.hasUser id = true := by
  unfold Database.hasUser
  rw [Database.findKey_of_get_user h]
  rfl

theorem Database.modify_user_eq {db : Database} {id : UserID} (f : UserData → UserData)
    (h : db.hasUser id = true) :
    db.modify_user id f = .ok { db with users := updKey db.users id f } := by
  simp [Database.modify_user, h]

theorem Service.enforce_of_subject {s : Service} {sub : UserData}
    (h : s.get_subject = some sub) :
    s.enforce = .ok { enforcer := s.enforcer, subject := sub } := by
  simp [Service.enforce, h]

theorem Service.enforce_of_no_subject {s : Service}
    (h : s.get_subject = none) : s.enforce = .error (.AccessDenied ⟨⟩) := by
  simp [Service.enforce, h]

theorem Context.enforce_ok_iff {ctx : Context} {obj : AuthzObject} {act : String} :
    ctx.enforce obj act = .ok () ↔ ctx.enforcer ctx.subject obj act = true := by
  unfold Context.enforce
  split <;> simp_all

theorem Context.enforce_true {ctx : Context} {obj : AuthzObject} {act : String}
    (h : ctx.enforcer ctx.subject obj act = true) : ctx.enforce obj act = .ok () := by
  simp [Context.enforce, h]

theorem UserData.set_folder_self {u : UserData} {mf : Option MedicalFolder}
    (h : u.medical_folder = mf) : { u with medical_folder := mf } = u := by
  rw [← h]

/-! ### Error implies no store mutation: one frame lemma per protected mutator -/

theorem update_role_err_frame (s : Service) (uid : UserID) (r : Role) (e : ServiceError)
    (h : (s.update_role uid r).1 = .error e) : (s.update_role uid r).2 = s := by
  unfold Service.update_role at h ⊢
  cases h1 : s.db.get_user uid <;> simp only [h1] at h ⊢
  case ok user =>
    cases h2 : s.enforce <;> simp only [h2] at h ⊢
    case ok ctx =>
      cases h3 : ctx.update_role user r <;> simp only [h3] at h ⊢
      case ok =>
        cases h4 : s.db.modify_user uid (fun u => { u with role := r }) <;>
          simp only [h4] at h ⊢
        case ok db => simp at h

theorem update_data_err_frame (s : Service) (uid : UserID) (pd : PersonalData)
    (e : ServiceError) (h : (s.update_data uid pd).1 = .error e) :
    (s.update_data uid pd).2 = s := by
  unfold Service.update_data at h ⊢
  cases h1 : s.db.get_user uid <;> simp only [h1] at h ⊢
  case ok user =>
    cases h2 : s.enforce <;> simp only [h2] at h ⊢
    case ok ctx =>
      cases h3 : ctx.update_data user <;> simp only [h3] at h ⊢
      case ok =>
        cases h4 : s.db.modify_user uid (fun u =>
            { u with medical_folder :=
                match u.medical_folder with
                | some folder => some { folder with personal_data := pd }
                | none => some (MedicalFolder.new pd) }) <;>
          simp only [h4] at h ⊢
        case ok db => simp at h

theorem delete_data_err_frame (s : Service) (patient : UserID) (e : ServiceError)
    (h : (s.delete_data patient).1 = .error e) : (s.delete_data patient).2 = s := by
  unfold Service.delete_data at h ⊢
  cases h1 : s.db.get_user patient <;> simp only [h1] at h ⊢
  case ok user =>
    cases h2 : s.enforce <;> simp only [h2] at h ⊢
    case ok ctx =>
      cases h3 : ctx.update_data user <;> simp only [h3] at h ⊢
      case ok =>
        cases h4 : s.db.modify_user patient (fun u => { u with medical_folder := none }) <;>
          simp only [h4] at h ⊢
        case ok db => simp at h

theorem add_report_err_frame (s : Service) (author patient : UserID)
    (title content : String) (rid : ReportID) (e : ServiceError)
    (h : (s.add_report author patient title content rid).1 = .error e) :
    (s.add_report author patient title content rid).2 = s := by
  unfold Service.add_report at h ⊢
  cases h1 : s.db.get_user patient <;> simp only [h1] at h ⊢
  case ok user =>
    cases h2 : s.enforce <;> simp only [h2] at h ⊢
    case ok ctx =>
      cases h3 : ctx.add_report user
          { id := rid, title := title, author := author, patient := patient,
            content := content } <;>
        simp only [h3] at h ⊢
      case ok => simp at h

theorem add_doctor_err_frame (s : Service) (pid did : UserID) (e : ServiceError)
    (h : (s.add_doctor pid did).1 = .error e) : (s.add_doctor pid did).2 = s := by
  unfold Service.add_doctor at h ⊢
  cases h1 : s.db.get_user pid <;> simp only [h1] at h ⊢
  case ok patient =>
    cases h2 : s.db.get_user did <;> simp only [h2] at h ⊢
    case ok doctor =>
      cases h3 : s.enforce <;> simp only [h3] at h ⊢
      case ok ctx =>
        cases h4 : ctx.add_doctor patient doctor <;> simp only [h4] at h ⊢
        case ok =>
          cases h5 : s.db.modify_user pid (fun u =>
              { u with medical_folder :=
                  u.medical_folder.map (fun f => { f with doctors := insert did f.doctors }) }) <;>
            simp only [h5] at h ⊢
          case ok db => simp at h

theorem remove_doctor_err_frame (s : Service) (pid did : UserID) (e : ServiceError)
    (h : (s.remove_doctor pid did).1 = .error e) : (s.remove_doctor pid did).2 = s := by
  unfold Service.remove_doctor at h ⊢
  cases h1 : s.db.get_user pid <;> simp only [h1] at h ⊢
  case ok patient =>
    cases h2 : s.db.get_user did <;> simp only [h2] at h ⊢
    case ok doctor =>
      cases h3 : s.enforce <;> simp only [h3] at h ⊢
      case ok ctx =>
        cases h4 : ctx.remove_doctor patient doctor <;> simp only [h4] at h ⊢
        case ok =>
          cases h5 : s.db.modify_user pid (fun u =>
              { u with medical_folder :=
                  u.medical_folder.map (fun f => { f with doctors := f.doctors.erase did }) }) <;>
            simp only [h5] at h ⊢
          case ok db => simp at h

theorem update_report_err_frame (s : Service) (rid : ReportID) (content : String)
    (e : ServiceError) (h : (s.update_report rid content).1 = .error e) :
    (s.update_report rid content).2 = s := by
  unfold Service.update_report at h ⊢
  cases h1 : s.db.get_report rid <;> simp only [h1] at h ⊢
  case some report =>
    cases h2 : s.enforce <;> simp only [h2] at h ⊢
    case ok ctx =>
      cases h3 : ctx.update_report report <;> simp only [h3] at h ⊢
      case ok => simp at h

/-! ### Decidability instances for concrete evaluation -/

instance {ε α : Type} [DecidableEq ε] [DecidableEq α] : DecidableEq (Except ε α) := fun a b =>
  match a, b with
  | .error x, .error y =>
    if h : x = y then .isTrue (by rw [h]) else .isFalse (fun hc => h (Except.error.inj hc))
  | .error _, .ok _ => .isFalse (fun hc => Except.noConfusion hc)
  | .ok _, .error _ => .isFalse (fun hc => Except.noConfusion hc)
  | .ok x, .ok y =>
    if h : x = y then .isTrue (by rw [h]) else .isFalse (fun hc => h (Except.ok.inj hc))

instance (db : Database) : Decidable db.WF := by
  unfold Database.WF
  infer_instance

/-! ### Concrete fixtures used by witnesses and counterexamples -/

/-- A concrete administrator. -/
def userAdmin : UserData :=
  { id := 0, role := .Admin, username := "root", password := hash "rootpw4ever",
    medical_folder := none }

/-- A concrete patient with a folder; doctor 2 is her treating doctor. -/
def userAlice : UserData :=
  { id := 1, role := .Patient, username := "alice", password := hash "alice-password",
    medical_folder := some
      { personal_data := { avs_number := "756.1234.5678.97", blood_type := .A },
        doctors := {2} } }

/-- A concrete doctor. -/
def userBob : UserData :=
  { id := 2, role := .Doctor, username := "drbob", password := hash "bob-password",
    medical_folder := none }

/-- A concrete report authored by doctor 2 about patient 1. -/
def reportAlice : MedicalReport :=
  { id := 10, title := "checkup", author := 2, patient := 1, content := "fine" }

/-- A concrete store holding the three users and the one report. -/
def dbMain : Database :=
  { users := [(0, userAdmin), (1, userAlice), (2, userBob)], reports := [(10, reportAlice)] }

/-- An oracle that allows everything. -/
def allowAll : Enforcer := fun _ _ _ => true

/-- An oracle that allows everything except the `delete-data` action. -/
def noDelete : Enforcer := fun _ _ act => !(act == "delete-data")

/-- The service with the admin logged in and the all-allowing oracle. -/
def svcAdmin : Service := { user := some 0, db := dbMain, enforcer := allowAll }

/-- The service with the admin logged in and the `noDelete` oracle. -/
def svcAdminNoDelete : Service := { user := some 0, db := dbMain, enforcer := noDelete }

/-- The service with nobody logged in. -/
def svcAnon : Service := { user := none, db := dbMain, enforcer := allowAll }

theorem MedicalFolder.set_doctors_self {f : MedicalFolder} {d : Finset UserID}
    (h : f.doctors = d) : { f with doctors := d } = f := by
  rw [← h]

theorem Database.findKey_of_get_report {db : Database} {id : ReportID} {r : MedicalReport}
    (h : db.get_report id = some r) : findKey db.reports id = some (id, r) := by
  unfold Database.get_report at h
  cases hf : findKey db.reports id with
  | none => rw [hf] at h; cases h
  | some kv =>
    rw [hf] at h
    obtain ⟨k, v⟩ := kv
    have hk : k = id := findKey_some_key hf
    have hv : v = r := by injection h
    rw [hk, hv]

/-- Number of stored users carrying a given username. -/
def countUsername (db : Database) (name : Username) : Nat :=
  (db.users.filter (fun kv => kv.2.username == name)).length

/-! ### Claim theorems -/

/-- Claim C1 (code bug): `Service::delete_data` does NOT invoke the matching
`delete-data` authorization check; it gates the wipe on the `update-data`
check instead (`Context::delete_data` is dead code in the service).  With an
oracle that denies exactly the `delete-data` action, the `delete-data` check
denies on the target, yet `delete_data` succeeds and mutates the store
(folder cleared, reports removed), which is impossible if the matching check
were invoked before any store mutation. -/
theorem C1_delete_data_bypasses_delete_data_check :
    noDelete userAdmin (.user userAlice) "delete-data" = false ∧
    Context.delete_data { enforcer := noDelete, subject := userAdmin } userAlice = .error ⟨⟩ ∧
    (svcAdminNoDelete.delete_data 1).1 = .ok () ∧
    (svcAdminNoDelete.delete_data 1).2.db.get_user 1 =
      .ok { userAlice with medical_folder := none } ∧
    (svcAdminNoDelete.delete_data 1).2.db.reports = [] := by decide

/-- Claim C2: for every protected mutating operation of the record service
(`update_role`, `update_data`, `delete_data`, `add_report`, `add_doctor`,
`remove_doctor`, `update_report`), if the call returns an error of any kind,
the resulting service state (in particular the users map and the reports
map) is identical to the state before the call. -/
theorem C2_error_leaves_store_unchanged :
    (∀ (s : Service) (uid : UserID) (r : Role) (e : ServiceError),
      (s.update_role uid r).1 = .error e → (s.update_role uid r).2 = s) ∧
    (∀ (s : Service) (uid : UserID) (pd : PersonalData) (e : ServiceError),
      (s.update_data uid pd).1 = .error e → (s.update_data uid pd).2 = s) ∧
    (∀ (s : Service) (patient : UserID) (e : ServiceError),
      (s.delete_data patient).1 = .error e → (s.delete_data patient).2 = s) ∧
    (∀ (s : Service) (author patient : UserID) (title content : String) (rid : ReportID)
      (e : ServiceError),
      (s.add_report author patient title content rid).1 = .error e →
        (s.add_report author patient title content rid).2 = s) ∧
    (∀ (s : Service) (pid did : UserID) (e : ServiceError),
      (s.add_doctor pid did).1 = .error e → (s.add_doctor pid did).2 = s) ∧
    (∀ (s : Service) (pid did : UserID) (e : ServiceError),
      (s.remove_doctor pid did).1 = .error e → (s.remove_doctor pid did).2 = s) ∧
    (∀ (s : Service) (rid : ReportID) (content : String) (e : ServiceError),
      (s.update_report rid content).1 = .error e → (s.update_report rid content).2 = s) :=
  ⟨update_role_err_frame, update_data_err_frame, delete_data_err_frame,
    add_report_err_frame, add_doctor_err_frame, remove_doctor_err_frame,
    update_report_err_frame⟩

/-- Witness for C2: a concrete denied call (no authenticated subject)
leaves the concrete store untouched. -/
theorem C2_error_leaves_store_unchanged_witness :
    (svcAnon.update_role 1 .Doctor).1 = .error (.AccessDenied ⟨⟩) ∧
    (svcAnon.update_role 1 .Doctor).2 = svcAnon :=
  ⟨by decide,
    C2_error_leaves_store_unchanged.1 svcAnon 1 .Doctor (.AccessDenied ⟨⟩) (by decide)⟩

/-- Claim C3 counterexample: the author of a new report is NOT resolved by
`add_report`.  With user ID 99 absent from the store, `add_report` with
author 99 succeeds (given an allowing oracle) and stores a report whose
author is the unknown ID, instead of failing with a not-found error. -/
theorem C3_unknown_author_not_rejected :
    svcAdmin.db.get_user 99 = .error (.InvalidUserID 99) ∧
    (svcAdmin.add_report 99 1 "t" "c" 11).1 = .ok () ∧
    (svcAdmin.add_report 99 1 "t" "c" 11).2.db.get_report 11 =
      some { id := 11, title := "t", author := 99, patient := 1, content := "c" } := by decide

/-- Claim C3 (amended): for every protected operation, the target / patient
/ doctor / report IDs are resolved in the store first: an unknown ID makes
the operation fail with the not-found error (`DBError`/`NoSuchReport`,
constructors distinct from `AccessDenied`) with the state unchanged, for
every oracle and every session (even an unauthenticated one, where any
authorization step would deny) — showing resolution precedes authorization.
The author ID of a new report is exempt: `add_report` never resolves it
(see the counterexample). -/
theorem C3_unknown_id_notfound_before_authz :
    (∀ (s : Service) (uid : UserID) (r : Role),
      s.db.get_user uid = .error (.InvalidUserID uid) →
      s.update_role uid r = (.error (.DBError (.InvalidUserID uid)), s)) ∧
    (∀ (s : Service) (uid : UserID),
      s.db.get_user uid = .error (.InvalidUserID uid) →
      s.get_data uid = .error (.DBError (.InvalidUserID uid))) ∧
    (∀ (s : Service) (uid : UserID) (pd : PersonalData),
      s.db.get_user uid = .error (.InvalidUserID uid) →
      s.update_data uid pd = (.error (.DBError (.InvalidUserID uid)), s)) ∧
    (∀ (s : Service) (p : UserID),
      s.db.get_user p = .error (.InvalidUserID p) →
      s.delete_data p = (.error (.DBError (.InvalidUserID p)), s)) ∧
    (∀ (s : Service) (author p : UserID) (t c : String) (rid : ReportID),
      s.db.get_user p = .error (.InvalidUserID p) →
      s.add_report author p t c rid = (.error (.DBError (.InvalidUserID p)), s)) ∧
    (∀ (s : Service) (pid did : UserID),
      s.db.get_user pid = .error (.InvalidUserID pid) →
      s.add_doctor pid did = (.error (.DBError (.InvalidUserID pid)), s)) ∧
    (∀ (s : Service) (pid did : UserID) (u : UserData),
      s.db.get_user pid = .ok u →
      s.db.get_user did = .error (.InvalidUserID did) →
      s.add_doctor pid did = (.error (.DBError (.InvalidUserID did)), s)) ∧
    (∀ (s : Service) (pid did : UserID),
      s.db.get_user pid = .error (.InvalidUserID pid) →
      s.remove_doctor pid did = (.error (.DBError (.InvalidUserID pid)), s)) ∧
    (∀ (s : Service) (pid did : UserID) (u : UserData),
      s.db.get_user pid = .ok u →
      s.db.get_user did = .error (.InvalidUserID did) →
      s.remove_doctor pid did = (.error (.DBError (.InvalidUserID did)), s)) ∧
    (∀ (s : Service) (rid : ReportID) (c : String),
      s.db.get_report rid = none →
      s.update_report rid c = (.error .NoSuchReport, s)) ∧
    (∀ e, ServiceError.DBError e ≠ .AccessDenied ⟨⟩) ∧
    (ServiceError.NoSuchReport ≠ .AccessDenied ⟨⟩) := by
  refine ⟨?_, ?_, ?_, ?_, ?_, ?_, ?_, ?_, ?_, ?_, ?_, ?_⟩
  · intro s uid r h
    simp [Service.update_role, h]
  · intro s uid h
    simp [Service.get_data, h]
  · intro s uid pd h
    simp [Service.update_data, h]
  · intro s p h
    simp [Service.delete_data, h]
  · intro s author p t c rid h
    simp [Service.add_report, h]
  · intro s pid did h
    simp [Service.add_doctor, h]
  · intro s pid did u h1 h2
    simp [Service.add_doctor, h1, h2]
  · intro s pid did h
    simp [Service.remove_doctor, h]
  · intro s pid did u h1 h2
    simp [Service.remove_doctor, h1, h2]
  · intro s rid c h
    simp [Service.update_report, h]
  · intro e hc
    cases hc
  · intro hc
    cases hc

/-- Witness for C3 (amended): a concrete unknown target ID fails with
not-found, even though the session is authenticated and the oracle allows
everything. -/
theorem C3_unknown_id_notfound_before_authz_witness :
    svcAdmin.db.get_user 99 = .error (.InvalidUserID 99) ∧
    svcAdmin.update_role 99 .Doctor = (.error (.DBError (.InvalidUserID 99)), svcAdmin) ∧
    svcAdmin.update_report 77 "x" = (.error .NoSuchReport, svcAdmin) :=
  ⟨by decide,
    C3_unknown_id_notfound_before_authz.1 svcAdmin 99 .Doctor (by decide),
    C3_unknown_id_notfound_before_authz.2.2.2.2.2.2.2.2.2.1 svcAdmin 77 "x" (by decide)⟩

/-- Claim C5 (code bug): for a nonexistent username the verify capability is
indeed exercised against the fixed decoy hash (first conjunct), and for
nonempty passwords both failure cases yield the same undifferentiated
`InvalidCredentials`; but at the concrete input (unknown username, empty
password) the decoy comparison succeeds — the decoy is the hash of `""` —
and the source then panics on `Option::unwrap` of `None` instead of
returning `InvalidCredentials`, an observable difference between the two
cases that falsifies the universally quantified claim. -/
theorem C5_login_decoy_and_empty_password_divergence :
    (∀ p, verify p none = (p == EMPTY_HASH)) ∧
    dbMain.lookup_username "nobody" = none ∧
    (svcAdmin.login "nobody" "x").1 = .err .InvalidCredentials ∧
    (svcAdmin.login "alice" "wrong").1 = .err .InvalidCredentials ∧
    (svcAdmin.login "alice" "").1 = .err .InvalidCredentials ∧
    (svcAdmin.login "nobody" "").1 = .panic :=
  ⟨fun _ => rfl, by decide, by decide, by decide, by decide, by decide⟩

/-- On success, `add_doctor` updates the patient entry in place with the
insert-into-doctor-set function and leaves the reports untouched. -/
theorem add_doctor_ok_shape (s : Service) (P D : UserID) (u : UserData)
    (hu : s.db.get_user P = .ok u)
    (hadd : (s.add_doctor P D).1 = .ok ()) :
    (s.add_doctor P D).2.db.users = updKey s.db.users P (fun u0 =>
      { u0 with medical_folder :=
          u0.medical_folder.map (fun f => { f with doctors := insert D f.doctors }) }) ∧
    (s.add_doctor P D).2.db.reports = s.db.reports := by
  have hmod := Database.modify_user_eq (fun u0 =>
      { u0 with medical_folder :=
          u0.medical_folder.map (fun f => { f with doctors := insert D f.doctors }) })
      (Database.hasUser_of_get_user hu)
  unfold Service.add_doctor at hadd ⊢
  simp only [hu] at hadd ⊢
  cases hd : s.db.get_user D <;> simp only [hd] at hadd ⊢
  case error e => simp at hadd
  case ok d =>
    cases he : s.enforce <;> simp only [he] at hadd ⊢
    case error e => simp at hadd
    case ok ctx =>
      cases hca : ctx.add_doctor u d <;> simp only [hca] at hadd ⊢
      case error e => simp at hadd
      case ok u1 =>
        simp only [hmod]
        exact ⟨by trivial, by trivial⟩

/-- On success, `remove_doctor` updates the patient entry in place with the
erase-from-doctor-set function and leaves the reports untouched. -/
theorem remove_doctor_ok_shape (s : Service) (P D : UserID) (u : UserData)
    (hu : s.db.get_user P = .ok u)
    (hrem : (s.remove_doctor P D).1 = .ok ()) :
    (s.remove_doctor P D).2.db.users = updKey s.db.users P (fun u0 =>
      { u0 with medical_folder :=
          u0.medical_folder.map (fun f => { f with doctors := f.doctors.erase D }) }) ∧
    (s.remove_doctor P D).2.db.reports = s.db.reports := by
  have hmod := Database.modify_user_eq (fun u0 =>
      { u0 with medical_folder :=
          u0.medical_folder.map (fun f => { f with doctors := f.doctors.erase D }) })
      (Database.hasUser_of_get_user hu)
  unfold Service.remove_doctor at hrem ⊢
  simp only [hu] at hrem ⊢
  cases hd : s.db.get_user D <;> simp only [hd] at hrem ⊢
  case error e => simp at hrem
  case ok d =>
    cases he : s.enforce <;> simp only [he] at hrem ⊢
    case error e => simp at hrem
    case ok ctx =>
      cases hca : ctx.remove_doctor u d <;> simp only [hca] at hrem ⊢
      case error e => simp at hrem
      case ok u1 =>
        simp only [hmod]
        exact ⟨by trivial, by trivial⟩

/-- Inserting a fresh doctor ID into a folder and erasing it again is the
identity on the user record. -/
theorem fadd_frem_cancel (u : UserData) (folder : MedicalFolder) (D : UserID)
    (hfold : u.medical_folder = some folder) (hD : D ∉ folder.doctors) :
    (fun u0 : UserData =>
      { u0 with medical_folder :=
          u0.medical_folder.map (fun f => { f with doctors := f.doctors.erase D }) })
      ((fun u0 : UserData =>
        { u0 with medical_folder :=
            u0.medical_folder.map (fun f => { f with doctors := insert D f.doctors }) }) u) =
      u := by
  obtain ⟨i, ro, un, pw, mf⟩ := u
  obtain ⟨pd, ds⟩ := folder
  simp only at hfold
  subst hfold
  simp [Finset.erase_insert hD]

/-- Claim C4: membership in `list_reports P` is exactly: the report is
stored, its patient field is `P`, and the read-report check for the current
subject on the report together with the resolved data of `P` succeeds; and
with no authenticated subject the listing is empty. -/
theorem C4_list_reports_characterization (s : Service) (P : UserID) (R : MedicalReport) :
    (R ∈ s.list_reports P ↔
      R ∈ s.db.list_reports ∧ R.patient = P ∧
      ∃ sub pdata, s.get_subject = some sub ∧ s.db.get_user P = .ok pdata ∧
        s.enforcer sub (.reportPatient R pdata) "read-report" = true) ∧
    (s.user = none → s.list_reports P = []) := by
  constructor
  · cases hs : s.get_subject with
    | none =>
      simp only [Service.list_reports, Service.enforce_of_no_subject hs]
      simp [hs]
    | some sub =>
      simp only [Service.list_reports, Service.enforce_of_subject hs]
      constructor
      · intro hmem
        rw [List.mem_filter] at hmem
        obtain ⟨hmem1, hq⟩ := hmem
        rw [List.mem_filter] at hmem1
        obtain ⟨hl, hp⟩ := hmem1
        have hpP : R.patient = P := by simpa using hp
        rw [hpP] at hq
        cases hg : s.db.get_user P with
        | error e => rw [hg] at hq; simp at hq
        | ok pdata =>
          rw [hg] at hq
          refine ⟨hl, hpP, sub, pdata, rfl, rfl, ?_⟩
          by_cases hb : s.enforcer sub (.reportPatient R pdata) "read-report" = true
          · exact hb
          · simp [Context.read_report, Context.enforce, hb] at hq
      · rintro ⟨hl, hpP, sub2, pdata, hs2, hg, hallow⟩
        injection hs2 with hsub2
        subst hsub2
        rw [List.mem_filter]
        refine ⟨List.mem_filter.mpr ⟨hl, by simp [hpP]⟩, ?_⟩
        have hrr : Context.read_report { enforcer := s.enforcer, subject := sub } R pdata =
            .ok () := by
          unfold Context.read_report
          exact Context.enforce_true hallow
        simp only [hpP, hg, hrr]
  · intro hnone
    have hs : s.get_subject = none := by simp [Service.get_subject, hnone]
    simp only [Service.list_reports, Service.enforce_of_no_subject hs]

/-- Witness for C4: on the concrete store, the anonymous service lists
nothing for patient 1, and the stored report is listed for the logged-in
admin because the check succeeds on the resolved patient. -/
theorem C4_list_reports_characterization_witness :
    svcAnon.list_reports 1 = [] ∧
    reportAlice ∈ svcAdmin.list_reports 1 :=
  ⟨(C4_list_reports_characterization svcAnon 1 reportAlice).2 rfl,
    (C4_list_reports_characterization svcAdmin 1 reportAlice).1.mpr
      ⟨by decide, by decide, userAdmin, userAlice, by decide, by decide, by decide⟩⟩

/-- Claim C6: on a patient whose data is already wiped (no medical folder,
no stored report with that patient field), `delete_data` succeeds for an
authorized subject and is idempotent: the call leaves the state unchanged,
so a second call in a row succeeds as well and yields the same end state. -/
theorem C6_delete_data_idempotent_on_wiped (s : Service) (P : UserID) (u sub : UserData)
    (hwf : s.db.WF)
    (hu : s.db.get_user P = .ok u)
    (hfold : u.medical_folder = none)
    (hrep : ∀ kv ∈ s.db.reports, kv.2.patient ≠ P)
    (hsub : s.get_subject = some sub)
    (hallow : s.enforcer sub (.user u) "update-data" = true) :
    s.delete_data P = (.ok (), s) ∧
    (s.delete_data P).2.delete_data P = (.ok (), (s.delete_data P).2) := by
  have hfind := Database.findKey_of_get_user hu
  have hupd : updKey s.db.users P (fun u0 => { u0 with medical_folder := none }) =
      s.db.users := by
    apply updKey_eq_self
    intro kv hm hk
    have hkv : kv = (P, u) := mem_key_eq_of_findKey hwf.1 hfind hm hk
    rw [hkv]
    exact UserData.set_folder_self hfold
  have hmod : s.db.modify_user P (fun u0 => { u0 with medical_folder := none }) =
      .ok s.db := by
    rw [Database.modify_user_eq (fun u0 => { u0 with medical_folder := none })
      (Database.hasUser_of_get_user hu), hupd]
  have hrem : s.db.remove_reports P = s.db := by
    unfold Database.remove_reports
    have hf : s.db.reports.filter (fun kv => kv.2.patient != P) = s.db.reports := by
      rw [List.filter_eq_self]
      intro kv hm
      simpa using hrep kv hm
    rw [hf]
  have hud : Context.update_data { enforcer := s.enforcer, subject := sub } u = .ok () := by
    unfold Context.update_data
    exact Context.enforce_true hallow
  have h1 : s.delete_data P = (.ok (), s) := by
    simp only [Service.delete_data, hu, Service.enforce_of_subject hsub, hud, hmod, hrem]
  refine ⟨h1, ?_⟩
  rw [h1]
  exact h1

/-- Witness for C6 on the concrete store: user 0 has no folder and no
reports, deleting twice succeeds and is a no-op both times. -/
theorem C6_delete_data_idempotent_on_wiped_witness :
    svcAdmin.delete_data 0 = (.ok (), svcAdmin) ∧
    (svcAdmin.delete_data 0).2.delete_data 0 = (.ok (), (svcAdmin.delete_data 0).2) :=
  C6_delete_data_idempotent_on_wiped svcAdmin 0 userAdmin userAdmin (by decide) (by decide)
    (by decide) (by decide) (by decide) (by decide)

/-- Claim C9: on an existing patient without a medical folder and an
existing doctor, when the respective checks allow the actions, `add_doctor`
and `remove_doctor` both succeed and leave the whole service state
unchanged: no folder is created and no doctor set is mutated. -/
theorem C9_doctor_ops_noop_without_folder (s : Service) (P D : UserID) (u d sub : UserData)
    (hwf : s.db.WF)
    (hu : s.db.get_user P = .ok u)
    (hfold : u.medical_folder = none)
    (hd : s.db.get_user D = .ok d)
    (hsub : s.get_subject = some sub)
    (haddallow : s.enforcer sub (.patientDoctor u d) "add-doctor" = true)
    (hremallow : s.enforcer sub (.patientDoctor u d) "remove-doctor" = true) :
    s.add_doctor P D = (.ok (), s) ∧ s.remove_doctor P D = (.ok (), s) := by
  have hfind := Database.findKey_of_get_user hu
  have hupd_add : updKey s.db.users P (fun u0 =>
      { u0 with medical_folder :=
          u0.medical_folder.map (fun f => { f with doctors := insert D f.doctors }) }) =
      s.db.users := by
    apply updKey_eq_self
    intro kv hm hk
    have hkv : kv = (P, u) := mem_key_eq_of_findKey hwf.1 hfind hm hk
    rw [hkv]
    show { u with medical_folder :=
      u.medical_folder.map (fun f => { f with doctors := insert D f.doctors }) } = u
    rw [hfold]
    exact UserData.set_folder_self hfold
  have hupd_rem : updKey s.db.users P (fun u0 =>
      { u0 with medical_folder :=
          u0.medical_folder.map (fun f => { f with doctors := f.doctors.erase D }) }) =
      s.db.users := by
    apply updKey_eq_self
    intro kv hm hk
    have hkv : kv = (P, u) := mem_key_eq_of_findKey hwf.1 hfind hm hk
    rw [hkv]
    show { u with medical_folder :=
      u.medical_folder.map (fun f => { f with doctors := f.doctors.erase D }) } = u
    rw [hfold]
    exact UserData.set_folder_self hfold
  have hmod_add : s.db.modify_user P (fun u0 =>
      { u0 with medical_folder :=
          u0.medical_folder.map (fun f => { f with doctors := insert D f.doctors }) }) =
      .ok s.db := by
    rw [Database.modify_user_eq (fun u0 =>
      { u0 with medical_folder :=
          u0.medical_folder.map (fun f => { f with doctors := insert D f.doctors }) })
      (Database.hasUser_of_get_user hu), hupd_add]
  have hmod_rem : s.db.modify_user P (fun u0 =>
      { u0 with medical_folder :=
          u0.medical_folder.map (fun f => { f with doctors := f.doctors.erase D }) }) =
      .ok s.db := by
    rw [Database.modify_user_eq (fun u0 =>
      { u0 with medical_folder :=
          u0.medical_folder.map (fun f => { f with doctors := f.doctors.erase D }) })
      (Database.hasUser_of_get_user hu), hupd_rem]
  have hctx_add : Context.add_doctor { enforcer := s.enforcer, subject := sub } u d =
      .ok () := by
    unfold Context.add_doctor
    exact Context.enforce_true haddallow
  have hctx_rem : Context.remove_doctor { enforcer := s.enforcer, subject := sub } u d =
      .ok () := by
    unfold Context.remove_doctor
    exact Context.enforce_true hremallow
  constructor
  · simp only [Service.add_doctor, hu, hd, Service.enforce_of_subject hsub, hctx_add,
      hmod_add]
  · simp only [Service.remove_doctor, hu, hd, Service.enforce_of_subject hsub, hctx_rem,
      hmod_rem]

/-- Witness for C9: user 0 exists without a folder, user 2 exists, the
oracle allows, and both operations succeed without touching the state. -/
theorem C9_doctor_ops_noop_without_folder_witness :
    svcAdmin.add_doctor 0 2 = (.ok (), svcAdmin) ∧
    svcAdmin.remove_doctor 0 2 = (.ok (), svcAdmin) :=
  C9_doctor_ops_noop_without_folder svcAdmin 0 2 userAdmin userBob userAdmin (by decide)
    (by decide) (by decide) (by decide) (by decide) (by decide) (by decide)

/-- Claim C10: a successful `update_report` changes only the content of the
addressed report: the call succeeds, the users map (hence every folder) is
untouched, the addressed report keeps its id, title, author and patient
fields with only the content replaced, and every other report id resolves
to exactly what it resolved to before. -/
theorem C10_update_report_frame (s : Service) (rid : ReportID) (c : String)
    (r : MedicalReport) (sub : UserData)
    (hr : s.db.get_report rid = some r)
    (hsub : s.get_subject = some sub)
    (hallow : s.enforcer sub (.report r) "update-report" = true) :
    (s.update_report rid c).1 = .ok () ∧
    (s.update_report rid c).2.db.users = s.db.users ∧
    (s.update_report rid c).2.db.get_report rid = some { r with content := c } ∧
    (∀ rid2, rid2 ≠ rid →
      (s.update_report rid c).2.db.get_report rid2 = s.db.get_report rid2) := by
  have hctx : Context.update_report { enforcer := s.enforcer, subject := sub } r = .ok () := by
    unfold Context.update_report
    exact Context.enforce_true hallow
  have h1 : s.update_report rid c = (.ok (), { s with db := s.db.set_report_content rid c }) := by
    simp only [Service.update_report, hr, Service.enforce_of_subject hsub, hctx]
  rw [h1]
  refine ⟨rfl, rfl, ?_, ?_⟩
  · show (s.db.set_report_content rid c).get_report rid = some { r with content := c }
    unfold Database.get_report Database.set_report_content
    rw [findKey_updKey_self, Database.findKey_of_get_report hr]
    rfl
  · intro rid2 hne
    show (s.db.set_report_content rid c).get_report rid2 = s.db.get_report rid2
    unfold Database.get_report Database.set_report_content
    rw [findKey_updKey_ne _ _ hne]

/-- Witness for C10 on the concrete store: updating report 10 succeeds,
keeps the users map, rewrites only the content of report 10, and leaves the
(absent) report 11 unresolved as before. -/
theorem C10_update_report_frame_witness :
    (svcAdmin.update_report 10 "updated").1 = .ok () ∧
    (svcAdmin.update_report 10 "updated").2.db.users = svcAdmin.db.users ∧
    (svcAdmin.update_report 10 "updated").2.db.get_report 10 =
      some { reportAlice with content := "updated" } ∧
    (svcAdmin.update_report 10 "updated").2.db.get_report 11 = svcAdmin.db.get_report 11 :=
  have h := C10_update_report_frame svcAdmin 10 "updated" reportAlice userAdmin
    (by decide) (by decide) (by decide)
  ⟨h.1, h.2.1, h.2.2.1, h.2.2.2 11 (by decide)⟩

/-- Claim C7 counterexample: when the doctor is already in the patient's
treating-doctor set, `add_doctor` is a no-op (set insert) but
`remove_doctor` erases the doctor, so the round-trip does not restore the
prior set: doctor 2 starts as alice's treating doctor and is gone after
add-then-remove. -/
theorem C7_roundtrip_not_restoring_counterexample :
    (dbMain.get_user 1).map (fun u => u.has_doctor 2) = .ok true ∧
    (svcAdmin.add_doctor 1 2).1 = .ok () ∧
    ((svcAdmin.add_doctor 1 2).2.remove_doctor 1 2).1 = .ok () ∧
    (((svcAdmin.add_doctor 1 2).2.remove_doctor 1 2).2.db.get_user 1).map
      (fun u => u.has_doctor 2) = .ok false := by decide

/-- Claim C7 (amended): for a patient with a folder and a doctor NOT yet in
the treating-doctor set, a successful `add_doctor` followed by a successful
`remove_doctor` with the same pair restores the patient record (hence the
treating-doctor set) exactly to its prior state. -/
theorem C7_add_then_remove_roundtrip (s : Service) (P D : UserID) (u : UserData)
    (folder : MedicalFolder)
    (hu : s.db.get_user P = .ok u)
    (hfold : u.medical_folder = some folder)
    (hDnotin : D ∉ folder.doctors)
    (hadd : (s.add_doctor P D).1 = .ok ())
    (hrem : ((s.add_doctor P D).2.remove_doctor P D).1 = .ok ()) :
    ((s.add_doctor P D).2.remove_doctor P D).2.db.get_user P = .ok u := by
  have hfind := Database.findKey_of_get_user hu
  obtain ⟨hA_users, hA_reports⟩ := add_doctor_ok_shape s P D u hu hadd
  have hu1 : (s.add_doctor P D).2.db.get_user P = .ok ((fun u0 : UserData =>
      { u0 with medical_folder :=
          u0.medical_folder.map (fun f => { f with doctors := insert D f.doctors }) }) u) := by
    unfold Database.get_user
    rw [hA_users, findKey_updKey_self, hfind]
    rfl
  obtain ⟨hR_users, hR_reports⟩ :=
    remove_doctor_ok_shape (s.add_doctor P D).2 P D _ hu1 hrem
  unfold Database.get_user
  rw [hR_users, hA_users, updKey_updKey, findKey_updKey_self, hfind]
  exact congrArg Except.ok (fadd_frem_cancel u folder D hfold hDnotin)

/-- Witness for C7 (amended): doctor 0 is not in alice's doctor set; adding
then removing them restores her record exactly. -/
theorem C7_add_then_remove_roundtrip_witness :
    (svcAdmin.add_doctor 1 0).1 = .ok () ∧
    ((svcAdmin.add_doctor 1 0).2.remove_doctor 1 0).1 = .ok () ∧
    ((svcAdmin.add_doctor 1 0).2.remove_doctor 1 0).2.db.get_user 1 = .ok userAlice :=
  ⟨by decide, by decide,
    C7_add_then_remove_roundtrip svcAdmin 1 0 userAlice
      { personal_data := { avs_number := "756.1234.5678.97", blood_type := .A },
        doctors := {2} }
      (by decide) (by decide) (by decide) (by decide) (by decide)⟩

/-- The user record `register` creates: role Patient, no folder, hashed
entered password. -/
def newPatient (username : Username) (pw : String) (nid : UserID) : UserData :=
  { id := nid, role := .Patient, username := username, password := hash pw,
    medical_folder := none }

/-- Claim C8: `register` with an already-stored username fails with the
conflict error (`UserAlreadyExists`) and leaves the state unchanged;
otherwise (with a fresh random ID, modelled as the hypothesis that the new
ID is unused) it appends exactly one new user with role `Patient`, no
medical folder and the hash of the entered password, and returns the new
ID; the username count rises by exactly one and a second registration of
the same username fails with the conflict error without touching the
state. -/
theorem C8_register_semantics (s : Service) (username : Username) (pw pw2 : String)
    (nid nid2 : UserID) :
    (∀ w, s.db.lookup_username username = some w →
      s.register username pw nid = (.error .UserAlreadyExists, s)) ∧
    (s.db.lookup_username username = none → s.db.hasUser nid = false →
      s.register username pw nid =
        (.ok nid,
          { s with db :=
            { s.db with users := s.db.users ++ [(nid, newPatient username pw nid)] } }) ∧
      countUsername (s.register username pw nid).2.db username =
        countUsername s.db username + 1 ∧
      (s.register username pw nid).2.register username pw2 nid2 =
        (.error .UserAlreadyExists, (s.register username pw nid).2)) := by
  constructor
  · intro w hw
    simp [Service.register, hw]
  · intro hnone hfresh
    have hreg : s.register username pw nid =
        (.ok nid,
          { s with db :=
            { s.db with users := s.db.users ++ [(nid, newPatient username pw nid)] } }) := by
      simp [Service.register, hnone, Database.store_user, hfresh, newPatient]
    refine ⟨hreg, ?_, ?_⟩
    · rw [hreg]
      unfold countUsername
      simp [List.filter_append, newPatient]
    · rw [hreg]
      have hfind0 : s.db.users.find? (fun kv => kv.2.username == username) = none := by
        unfold Database.lookup_username at hnone
        exact Option.map_eq_none'.mp hnone
      have hlk2 : Database.lookup_username
          { users := s.db.users ++ [(nid, newPatient username pw nid)],
            reports := s.db.reports } username = some (newPatient username pw nid) := by
        unfold Database.lookup_username
        rw [List.find?_append, hfind0]
        simp [newPatient]
      simp [Service.register, hlk2]

/-- Witness for C8: registering "alice" again conflicts and is a no-op;
registering the fresh "carol" succeeds with ID 7, raises the "carol" count
by one, and a second registration of "carol" conflicts without touching the
state. -/
theorem C8_register_semantics_witness :
    svcAdmin.register "alice" "x" 7 = (.error .UserAlreadyExists, svcAdmin) ∧
    (svcAdmin.register "carol" "pw" 7).1 = .ok 7 ∧
    countUsername (svcAdmin.register "carol" "pw" 7).2.db "carol" =
      countUsername svcAdmin.db "carol" + 1 ∧
    (svcAdmin.register "carol" "pw" 7).2.register "carol" "pw2" 8 =
      (.error .UserAlreadyExists, (svcAdmin.register "carol" "pw" 7).2) :=
  have h := C8_register_semantics svcAdmin "carol" "pw" "pw2" 7 8
  have h2 := h.2 (by decide) (by decide)
  ⟨(C8_register_semantics svcAdmin "alice" "x" "y" 7 8).1 userAlice (by decide),
    by rw [h2.1], h2.2.1, h2.2.2⟩

end Karak
